import Mathlib

/-!
# Verification of `src/ntfy-daemon/src/listener.rs` (Notify subscription listener)

Shallow embedding of the listener actor: the data model (`ServerEvent`,
`ListenerEvent`, `ConnectionState`, `ListenerCommand`, `ListenerConfig`), the
per-line stream processing of `recv_and_forward_loop`, the backoff policy of
`run_supervised_loop`, and the command loop `run_loop`.

Modelling conventions:
* Durations are natural numbers of seconds (`Duration::from_secs`).
* External collaborators (serde's JSON parsing, the HTTP client, the credential
  store, the URL builder) are represented by their observable outcomes: a wire
  line carries the result of the two serde parses; a connection attempt's
  network behaviour is an `AttemptInput` value describing what the environment
  did (request-build failure, transport failure, non-success status, or an
  accepted request followed by a finite stream of items and a clean close).
* The async channels are modelled as accumulated lists: the outbound event
  channel as a `List ListenerEvent` in emission order, `GetState` replies as a
  `List ConnectionState`. The `tokio::select!` race in `run_loop` is driven by
  a script saying, for each command-loop iteration, how far the supervised
  branch got before the command branch won (or that the supervised branch
  finished first).
* `anyhow::Error` values flowing through the attempt are modelled by the
  `NtfyError` inductive, covering the error classes the listener produces.
-/

namespace Notify

/-- The error classes a connection attempt can end with: request construction
errors, transport errors, non-success HTTP status, and the two malformed-line
errors `Error::InvalidMinMessage` / `Error::InvalidMessage` (each carrying the
offending raw line). -/
inductive NtfyError where
  | BuildRequest (msg : String)
  | Transport (msg : String)
  | HttpStatus (code : Nat)
  | InvalidMinMessage (raw : String)
  | InvalidMessage (raw : String)
deriving Repr, DecidableEq

/-- Modelled from the spec: `models::ReceivedMessage` is external to the unit;
only the fields the listener inspects are kept (the message id, read for the
debug log, and the numeric timestamp). -/
structure ReceivedMessage where
  id : String
  time : Nat
deriving Repr, DecidableEq

/-- `ServerEvent` from listener.rs: the tagged wire-level union
`open` / `message` / `keepalive`. -/
inductive ServerEvent where
  | Open (id : String) (time : Nat) (expires : Option Nat) (topic : String)
  | Message (msg : ReceivedMessage)
  | KeepAlive (id : String) (time : Nat) (expires : Option Nat) (topic : String)
deriving Repr, DecidableEq

/-- `ConnectionState` from listener.rs (the source spells the initial state
`Unitialized`). The delay is in seconds; the error is the causing error, when
present. -/
inductive ConnectionState where
  | Unitialized
  | Connected
  | Reconnecting (retry_count : Nat) (delay : Nat) (error : Option NtfyError)
deriving Repr, DecidableEq

/-- `ListenerEvent` from listener.rs: what the actor emits on the outbound
event channel. -/
inductive ListenerEvent where
  | Message (msg : ReceivedMessage)
  | ConnectionStateChanged (state : ConnectionState)
deriving Repr, DecidableEq

/-- `ListenerCommand` from listener.rs. The `oneshot::Sender` of `GetState` is
modelled by whether its receiving end is still alive when the actor replies. -/
inductive ListenerCommand where
  | Restart
  | Shutdown
  | GetState (replyOpen : Bool)
deriving Repr, DecidableEq

/-- `ListenerConfig` from listener.rs. The `http_client` and `credentials`
handles are external collaborators whose behaviour enters through
`AttemptInput`; the data the actor itself reads and writes is kept. -/
structure ListenerConfig where
  endpoint : String
  topic : String
  since : Nat
deriving Repr, DecidableEq

/-- The actor's owned mutable data: its config (holding the cursor) and the
stored connection state. The channels are modelled as function outputs. -/
structure ListenerActor where
  config : ListenerConfig
  state : ConnectionState
deriving Repr, DecidableEq

/-- A wire line, represented by the outcomes of the two external serde parses
performed on it: `minParse` is the result of
`serde_json::from_str::<models::MinMessage>` (just the `time` field),
`fullParse` the result of `serde_json::from_str::<ServerEvent>`. -/
structure Line where
  raw : String
  minParse : Option Nat
  fullParse : Option ServerEvent
deriving Repr, DecidableEq

/-- One item of the response line stream: either an I/O error surfaced by the
transport or a received line. The stream ends (remote closed cleanly) when the
list of items is exhausted. -/
inductive StreamItem where
  | ioErr (msg : String)
  | line (l : Line)
deriving Repr, DecidableEq

/-- The environment's behaviour for one connection attempt:
`buildErr` — `topic_request` fails; `execErr` — `http_client.execute` fails;
`httpErr` — `error_for_status` rejects a non-success status; `okStream` — the
request is accepted and the body yields these items before the remote closes. -/
inductive AttemptInput where
  | buildErr (msg : String)
  | execErr (msg : String)
  | httpErr (code : Nat)
  | okStream (items : List StreamItem)
deriving Repr, DecidableEq

/-- Result of running (part of) one connection attempt: the mutated actor, the
events emitted on the outbound channel in order, and the attempt's
`anyhow::Result<()>`. -/
structure AttemptOut where
  actor : ListenerActor
  events : List ListenerEvent
  result : Except NtfyError Unit

/-- `ListenerActor::set_state`: store the new state and publish it as a
`ConnectionStateChanged` outbound event. -/
def ListenerActor.set_state (self : ListenerActor) (s : ConnectionState) :
    ListenerActor × List ListenerEvent :=
  ({ self with state := s }, [ListenerEvent.ConnectionStateChanged s])

/-- The body of the `while let Some(msg) = stream.next().await` loop for one
item: propagate an I/O error; extract the minimal message (failure is
`InvalidMinMessage`, cursor untouched); advance the cursor to
`min_msg.time.max(self.config.since)`; fully parse (failure is
`InvalidMessage`, cursor already advanced); forward a `Message`, log and drop
`KeepAlive` / `Open`. -/
def ListenerActor.handleItem (self : ListenerActor) (item : StreamItem) : AttemptOut :=
  match item with
  | .ioErr m => ⟨self, [], .error (.Transport m)⟩
  | .line l =>
    match l.minParse with
    | none => ⟨self, [], .error (.InvalidMinMessage l.raw)⟩
    | some t =>
      let self := { self with
        config := { self.config with since := Nat.max t self.config.since } }
      match l.fullParse with
      | none => ⟨self, [], .error (.InvalidMessage l.raw)⟩
      | some ev =>
        match ev with
        | .Message m => ⟨self, [ListenerEvent.Message m], .ok ()⟩
        | .KeepAlive _ _ _ _ => ⟨self, [], .ok ()⟩
        | .Open _ _ _ _ => ⟨self, [], .ok ()⟩

/-- The stream loop of `recv_and_forward_loop`: process items in order until
one ends the attempt with an error or the stream is exhausted (clean close,
`Ok(())`). -/
def ListenerActor.streamLoop (self : ListenerActor) :
    List StreamItem → AttemptOut
  | [] => ⟨self, [], .ok ()⟩
  | item :: rest =>
    let out := self.handleItem item
    match out.result with
    | .error e => ⟨out.actor, out.events, .error e⟩
    | .ok _ =>
      let tail := out.actor.streamLoop rest
      ⟨tail.actor, out.events ++ tail.events, tail.result⟩

/-- `ListenerActor::recv_and_forward_loop`: build and execute the request
(failures end the attempt), then immediately `set_state(Connected)` and run the
stream loop. -/
def ListenerActor.recv_and_forward_loop (self : ListenerActor)
    (input : AttemptInput) : AttemptOut :=
  match input with
  | .buildErr m => ⟨self, [], .error (.BuildRequest m)⟩
  | .execErr m => ⟨self, [], .error (.Transport m)⟩
  | .httpErr c => ⟨self, [], .error (.HttpStatus c)⟩
  | .okStream items =>
    let pr := self.set_state .Connected
    let tail := pr.1.streamLoop items
    ⟨tail.actor, pr.2 ++ tail.events, tail.result⟩

/-- Modelled from the spec: `crate::retry::WaitExponentialRandom` lives in the
repository's `retry` module, which is not under src/. Per the spec it
"produces a non-decreasing sequence of wait durations with randomized jitter
between a minimum and maximum, tracks an attempt count, and can be reset".
The jittered sequence is abstracted as a function `seq` from attempt index to
delay (seconds); `count` is the attempt count. `next_delay()` peeks the
upcoming delay without consuming it; `wait()` sleeps that delay and advances
the count. -/
structure WaitExponentialRandom where
  minDelay : Nat
  maxDelay : Nat
  seq : Nat → Nat
  count : Nat

/-- Modelled from the spec: `WaitExponentialRandom::next_delay` peeks the
delay for the current attempt index. -/
def WaitExponentialRandom.next_delay (r : WaitExponentialRandom) : Nat :=
  r.seq r.count

/-- Modelled from the spec: `WaitExponentialRandom::wait().await` sleeps
`next_delay()` and advances the attempt count. -/
def WaitExponentialRandom.wait (r : WaitExponentialRandom) : WaitExponentialRandom :=
  { r with count := r.count + 1 }

/-- The `retrier` closure of `run_supervised_loop`: a fresh generator with
min 1 s and max 5 × 60 s and attempt count zero, drawing its jittered delays
from `seq`. -/
def retrier (seq : Nat → Nat) : WaitExponentialRandom :=
  { minDelay := 1, maxDelay := 5 * 60, seq := seq, count := 0 }

/-- One scripted connection attempt: the environment's behaviour for the
attempt and the attempt's measured uptime in seconds
(`Instant::now().duration_since(start_time)`), which is wall-clock input. -/
structure AttemptRecord where
  input : AttemptInput
  uptime : Nat
deriving Repr, DecidableEq

/-- Result of running the supervised loop over a scripted list of attempts:
the mutated actor, the backoff generator state, the emitted events, and
whether the loop broke out (an attempt returned cleanly). `finished = false`
means the script ran out while the loop would still be retrying. -/
structure SupervisedOut where
  actor : ListenerActor
  retry : WaitExponentialRandom
  events : List ListenerEvent
  finished : Bool

/-- The `loop` body of `run_supervised_loop`, iterated over the scripted
attempts: run one attempt; on success break; on failure reset the generator
when uptime exceeded 60 × 4 s, publish `Reconnecting` with the current count,
the upcoming delay and the causing error, then wait for that delay and retry. -/
def supervisedGo (seq : Nat → Nat) (self : ListenerActor)
    (retry : WaitExponentialRandom) :
    List AttemptRecord → SupervisedOut
  | [] => ⟨self, retry, [], false⟩
  | a :: rest =>
    let out := self.recv_and_forward_loop a.input
    match out.result with
    | .ok _ => ⟨out.actor, retry, out.events, true⟩
    | .error e =>
      let retry := if a.uptime > 60 * 4 then retrier seq else retry
      let pr := out.actor.set_state
        (.Reconnecting retry.count retry.next_delay (some e))
      let tail := supervisedGo seq pr.1 retry.wait rest
      ⟨tail.actor, tail.retry, out.events ++ pr.2 ++ tail.events, tail.finished⟩

/-- `ListenerActor::run_supervised_loop`: initialize a fresh backoff generator
(`let mut retry = retrier()`) and run the retry loop over the scripted
attempts. -/
def ListenerActor.run_supervised_loop (seq : Nat → Nat) (self : ListenerActor)
    (attempts : List AttemptRecord) : SupervisedOut :=
  supervisedGo seq self (retrier seq) attempts

/-- A connection attempt cancelled mid-flight (its future dropped at an await
point): for an accepted request, `Connected` was already set and the first `k`
stream items were processed; their mutations and emitted events persist, and
nothing else of the attempt happens. An attempt cancelled before the response
arrived has observed nothing. -/
def ListenerActor.cancelledAttempt (self : ListenerActor) (input : AttemptInput)
    (k : Nat) : ListenerActor × List ListenerEvent :=
  match input with
  | .okStream items =>
    let pr := self.set_state .Connected
    let out := pr.1.streamLoop (items.take k)
    (out.actor, pr.2 ++ out.events)
  | _ => (self, [])

/-- One scripted iteration of the `select!` race in `run_loop`:
`superWins attempts` — the supervised branch finishes first, having run the
scripted attempts (it finishes only if one of them returns cleanly);
`cmdWins completed inflight c` — the command branch wins after the supervised
branch completed the scripted attempts (all failing) and, optionally, part of
one more in-flight attempt; `c = none` models `commands_rx.recv()` returning
`None` (command channel closed). The losing supervised future is dropped. -/
inductive RaceStep where
  | superWins (attempts : List AttemptRecord)
  | cmdWins (completed : List AttemptRecord)
      (inflight : Option (AttemptInput × Nat)) (c : Option ListenerCommand)

/-- Dropping the supervised future where it stood: when a command arrives
mid-attempt, the in-flight attempt's prefix effects persist
(`self` is borrowed mutably, so cursor and state writes already made stay)
and nothing else of it runs. `none` means the command arrived between
attempts (during the backoff sleep or before a request was accepted). -/
def applyCancel (self : ListenerActor) :
    Option (AttemptInput × Nat) → ListenerActor × List ListenerEvent
  | none => (self, [])
  | some (input, k) => self.cancelledAttempt input k

/-- Result of the command loop: the mutated actor, the outbound events, the
`GetState` replies actually delivered, the number of warnings logged for
dropped reply channels, and whether the actor body ended. `ended = false`
means the script ran out (or left the select pending forever) with the actor
still alive. -/
structure RunOut where
  actor : ListenerActor
  events : List ListenerEvent
  replies : List ConnectionState
  warns : Nat
  ended : Bool

/-- Prepend a prefix of events to a command-loop result. -/
def RunOut.withEvents (evs : List ListenerEvent) (r : RunOut) : RunOut :=
  { r with events := evs ++ r.events }

/-- `ListenerActor::run_loop`: each `loop` iteration races a freshly created
`self.run_supervised_loop()` future against `commands_rx.recv()`.
If the supervised branch completes first the actor body ends. Otherwise the
supervised future is dropped where it stood and the command is handled:
`Restart` continues the loop (the next iteration creates a new supervised
future); `Shutdown` breaks; `GetState` sends a clone of the stored state
(logging a warning when the reply receiver is gone) and continues the loop;
a closed command channel breaks. -/
def ListenerActor.run_loop (seq : Nat → Nat) (self : ListenerActor) :
    List RaceStep → RunOut
  | [] => ⟨self, [], [], 0, false⟩
  | .superWins attempts :: _ =>
    let out := self.run_supervised_loop seq attempts
    ⟨out.actor, out.events, [], 0, out.finished⟩
  | .cmdWins completed inflight c :: rest =>
    let out := self.run_supervised_loop seq completed
    if out.finished then
      ⟨out.actor, out.events, [], 0, true⟩
    else
      let pr := applyCancel out.actor inflight
      match c with
      | some .Restart =>
        .withEvents (out.events ++ pr.2) (pr.1.run_loop seq rest)
      | some .Shutdown => ⟨pr.1, out.events ++ pr.2, [], 0, true⟩
      | some (.GetState replyOpen) =>
        let tail := pr.1.run_loop seq rest
        { tail with
          events := out.events ++ pr.2 ++ tail.events,
          replies := (if replyOpen then [pr.1.state] else []) ++ tail.replies,
          warns := (if replyOpen then 0 else 1) + tail.warns }
      | none => ⟨pr.1, out.events ++ pr.2, [], 0, true⟩

/-- The actor as spawned by `ListenerHandle::new`: the given config and the
initial `Unitialized` state. -/
def initialActor (endpoint topic : String) (since : Nat) : ListenerActor :=
  ⟨⟨endpoint, topic, since⟩, .Unitialized⟩

/-- The state an observer of the outbound channel would record after a list of
events, starting from `dflt`: the state of the last `ConnectionStateChanged`
among them, or `dflt` when there is none. -/
def lastState (dflt : ConnectionState) : List ListenerEvent → ConnectionState
  | [] => dflt
  | ListenerEvent.Message _ :: rest => lastState dflt rest
  | ListenerEvent.ConnectionStateChanged s :: rest => lastState s rest

/-- A stream item the receive loop consumes without ending the attempt: a
line on which both serde parses succeed (an I/O error item always ends the
attempt). -/
def StreamItem.clean : StreamItem → Bool
  | .ioErr _ => false
  | .line l => l.minParse.isSome && l.fullParse.isSome

/-- The environment behaviours under which a connection attempt reaches the
end of the line stream without error: the request was accepted and every
streamed item is consumed cleanly, after which the remote closes. -/
def AttemptInput.cleanEnd : AttemptInput → Bool
  | .okStream items => items.all StreamItem.clean
  | _ => false

/-! ### Concrete fixtures (used by witnesses and counterexamples)

These mirror the repository's own test
`test_listener_reconnects_on_http_status_500`: the server answers the first
attempt with HTTP 500 and the second with 200 followed by one valid `open`
event; `fixSeq` is one concrete jitter draw for the backoff generator. -/

def fixSeq : Nat → Nat := fun i => i + 1

def failRec : AttemptRecord := ⟨.httpErr 500, 0⟩

def openLine : Line :=
  ⟨"open-event-line", some 1635528757,
   some (.Open "SLiKI64DOt" 1635528757 none "mytopic")⟩

def okRec : AttemptRecord := ⟨.okStream [.line openLine], 0⟩

def msgLine : Line :=
  ⟨"message-event-line", some 1635528757,
   some (.Message ⟨"m1", 1635528757⟩)⟩

def testActor : ListenerActor := initialActor "http://localhost" "test" 0

/-- A failed attempt whose uptime (300 s) exceeded the 4-minute stability
threshold. -/
def failLong : AttemptRecord := ⟨.httpErr 500, 300⟩

/-! ## Helper lemmas -/

lemma lastState_append (d : ConnectionState) (e1 e2 : List ListenerEvent) :
    lastState d (e1 ++ e2) = lastState (lastState d e1) e2 := by
  induction e1 generalizing d with
  | nil => rfl
  | cons e rest ih => cases e <;> simp [lastState, ih]

lemma lastState_of_no_csc (d : ConnectionState) (evs : List ListenerEvent)
    (h : ∀ s, ListenerEvent.ConnectionStateChanged s ∉ evs) :
    lastState d evs = d := by
  induction evs with
  | nil => rfl
  | cons e rest ih =>
    cases e with
    | Message m =>
      simp only [lastState]
      exact ih fun s hs => h s (List.mem_cons_of_mem _ hs)
    | ConnectionStateChanged s => exact absurd (List.mem_cons_self _ _) (h s)

lemma handleItem_no_csc (self : ListenerActor) (item : StreamItem) (s : ConnectionState) :
    ListenerEvent.ConnectionStateChanged s ∉ (self.handleItem item).events := by
  cases item with
  | ioErr m => simp [ListenerActor.handleItem]
  | line l =>
    cases hm : l.minParse with
    | none => simp [ListenerActor.handleItem, hm]
    | some t =>
      cases hf : l.fullParse with
      | none => simp [ListenerActor.handleItem, hm, hf]
      | some ev => cases ev <;> simp [ListenerActor.handleItem, hm, hf]

lemma handleItem_state (self : ListenerActor) (item : StreamItem) :
    (self.handleItem item).actor.state = self.state := by
  cases item with
  | ioErr m => rfl
  | line l =>
    cases hm : l.minParse with
    | none => simp [ListenerActor.handleItem, hm]
    | some t =>
      cases hf : l.fullParse with
      | none => simp [ListenerActor.handleItem, hm, hf]
      | some ev => cases ev <;> simp [ListenerActor.handleItem, hm, hf]

lemma handleItem_since_mono (self : ListenerActor) (item : StreamItem) :
    self.config.since ≤ (self.handleItem item).actor.config.since := by
  cases item with
  | ioErr m => exact le_refl _
  | line l =>
    cases hm : l.minParse with
    | none => simp [ListenerActor.handleItem, hm]
    | some t =>
      cases hf : l.fullParse with
      | none =>
        simp [ListenerActor.handleItem, hm, hf, Nat.le_max_right]
      | some ev =>
        cases ev <;> simp [ListenerActor.handleItem, hm, hf, Nat.le_max_right]

lemma streamLoop_no_csc (self : ListenerActor) (items : List StreamItem)
    (s : ConnectionState) :
    ListenerEvent.ConnectionStateChanged s ∉ (self.streamLoop items).events := by
  induction items generalizing self with
  | nil => simp [ListenerActor.streamLoop]
  | cons item rest ih =>
    simp only [ListenerActor.streamLoop]
    cases hr : (self.handleItem item).result with
    | error e => exact handleItem_no_csc self item s
    | ok u =>
      simp only [List.mem_append]
      rintro (h | h)
      · exact handleItem_no_csc self item s h
      · exact ih _ h

lemma streamLoop_state (self : ListenerActor) (items : List StreamItem) :
    (self.streamLoop items).actor.state = self.state := by
  induction items generalizing self with
  | nil => rfl
  | cons item rest ih =>
    simp only [ListenerActor.streamLoop]
    cases hr : (self.handleItem item).result with
    | error e => exact handleItem_state self item
    | ok u => simpa [ih] using handleItem_state self item

lemma streamLoop_since_mono (self : ListenerActor) (items : List StreamItem) :
    self.config.since ≤ (self.streamLoop items).actor.config.since := by
  induction items generalizing self with
  | nil => exact le_refl _
  | cons item rest ih =>
    simp only [ListenerActor.streamLoop]
    cases hr : (self.handleItem item).result with
    | error e => exact handleItem_since_mono self item
    | ok u => exact le_trans (handleItem_since_mono self item) (ih _)

lemma recv_state (self : ListenerActor) (input : AttemptInput) :
    (self.recv_and_forward_loop input).actor.state
      = lastState self.state (self.recv_and_forward_loop input).events := by
  cases input with
  | buildErr m => rfl
  | execErr m => rfl
  | httpErr c => rfl
  | okStream items =>
    simp only [ListenerActor.recv_and_forward_loop, ListenerActor.set_state,
      List.cons_append, List.nil_append, lastState]
    rw [streamLoop_state]
    exact (lastState_of_no_csc _ _ (streamLoop_no_csc _ _)).symm

lemma recv_since_mono (self : ListenerActor) (input : AttemptInput) :
    self.config.since ≤ (self.recv_and_forward_loop input).actor.config.since := by
  cases input with
  | buildErr m => exact le_refl _
  | execErr m => exact le_refl _
  | httpErr c => exact le_refl _
  | okStream items =>
    simpa [ListenerActor.recv_and_forward_loop, ListenerActor.set_state] using
      streamLoop_since_mono ⟨self.config, .Connected⟩ items

lemma recv_no_uninit (self : ListenerActor) (input : AttemptInput) :
    ListenerEvent.ConnectionStateChanged .Unitialized
      ∉ (self.recv_and_forward_loop input).events := by
  cases input with
  | buildErr m => simp [ListenerActor.recv_and_forward_loop]
  | execErr m => simp [ListenerActor.recv_and_forward_loop]
  | httpErr c => simp [ListenerActor.recv_and_forward_loop]
  | okStream items =>
    simp only [ListenerActor.recv_and_forward_loop, ListenerActor.set_state,
      List.singleton_append, List.mem_cons, List.mem_append]
    rintro (h | h)
    · exact ListenerEvent.noConfusion h fun hs => ConnectionState.noConfusion hs
    · exact streamLoop_no_csc _ _ _ h

lemma supervisedGo_state (seq : Nat → Nat) (self : ListenerActor)
    (retry : WaitExponentialRandom) (attempts : List AttemptRecord) :
    (supervisedGo seq self retry attempts).actor.state
      = lastState self.state (supervisedGo seq self retry attempts).events := by
  induction attempts generalizing self retry with
  | nil => rfl
  | cons a rest ih =>
    simp only [supervisedGo]
    cases hr : (self.recv_and_forward_loop a.input).result with
    | ok u => exact recv_state self a.input
    | error e =>
      simp only [ListenerActor.set_state]
      rw [ih, lastState_append, lastState_append]
      rw [← recv_state self a.input]
      simp [lastState]

lemma supervisedGo_since_mono (seq : Nat → Nat) (self : ListenerActor)
    (retry : WaitExponentialRandom) (attempts : List AttemptRecord) :
    self.config.since ≤ (supervisedGo seq self retry attempts).actor.config.since := by
  induction attempts generalizing self retry with
  | nil => exact le_refl _
  | cons a rest ih =>
    simp only [supervisedGo]
    cases hr : (self.recv_and_forward_loop a.input).result with
    | ok u => exact recv_since_mono self a.input
    | error e =>
      simp only [ListenerActor.set_state]
      refine le_trans (recv_since_mono self a.input) ?_
      exact ih ⟨(self.recv_and_forward_loop a.input).actor.config,
        ConnectionState.Reconnecting (if a.uptime > 60 * 4 then retrier seq else retry).count
          (if a.uptime > 60 * 4 then retrier seq else retry).next_delay (some e)⟩
        (if a.uptime > 60 * 4 then retrier seq else retry).wait

lemma supervisedGo_no_uninit (seq : Nat → Nat) (self : ListenerActor)
    (retry : WaitExponentialRandom) (attempts : List AttemptRecord) :
    ListenerEvent.ConnectionStateChanged .Unitialized
      ∉ (supervisedGo seq self retry attempts).events := by
  induction attempts generalizing self retry with
  | nil => simp [supervisedGo]
  | cons a rest ih =>
    simp only [supervisedGo]
    cases hr : (self.recv_and_forward_loop a.input).result with
    | ok u => exact recv_no_uninit self a.input
    | error e =>
      simp only [ListenerActor.set_state, List.mem_append, List.mem_singleton]
      rintro ((h | h) | h)
      · exact recv_no_uninit self a.input h
      · exact ListenerEvent.noConfusion h fun hs => ConnectionState.noConfusion hs
      · exact ih _ _ h

lemma applyCancel_state (self : ListenerActor) (inflight : Option (AttemptInput × Nat)) :
    (applyCancel self inflight).1.state
      = lastState self.state (applyCancel self inflight).2 := by
  cases inflight with
  | none => rfl
  | some p =>
    obtain ⟨input, k⟩ := p
    cases input with
    | buildErr m => rfl
    | execErr m => rfl
    | httpErr c => rfl
    | okStream items =>
      simp only [applyCancel, ListenerActor.cancelledAttempt, ListenerActor.set_state,
        List.cons_append, List.nil_append, lastState]
      rw [streamLoop_state]
      exact (lastState_of_no_csc _ _ (streamLoop_no_csc _ _)).symm

lemma applyCancel_since_mono (self : ListenerActor)
    (inflight : Option (AttemptInput × Nat)) :
    self.config.since ≤ (applyCancel self inflight).1.config.since := by
  cases inflight with
  | none => exact le_refl _
  | some p =>
    obtain ⟨input, k⟩ := p
    cases input with
    | buildErr m => exact le_refl _
    | execErr m => exact le_refl _
    | httpErr c => exact le_refl _
    | okStream items =>
      simpa [applyCancel, ListenerActor.cancelledAttempt, ListenerActor.set_state] using
        streamLoop_since_mono ⟨self.config, .Connected⟩ (items.take k)

lemma supervisedGo_cons_ok (seq : Nat → Nat) (self : ListenerActor)
    (retry : WaitExponentialRandom) (a : AttemptRecord) (rest : List AttemptRecord)
    (h : (self.recv_and_forward_loop a.input).result = Except.ok ()) :
    supervisedGo seq self retry (a :: rest) =
      ⟨(self.recv_and_forward_loop a.input).actor, retry,
       (self.recv_and_forward_loop a.input).events, true⟩ := by
  simp only [supervisedGo, h]

lemma supervisedGo_cons_err (seq : Nat → Nat) (self : ListenerActor)
    (retry : WaitExponentialRandom) (a : AttemptRecord) (rest : List AttemptRecord)
    (e : NtfyError)
    (h : (self.recv_and_forward_loop a.input).result = Except.error e) :
    supervisedGo seq self retry (a :: rest) =
      (fun retry2 =>
        (fun pr =>
          (fun tail =>
            (⟨tail.actor, tail.retry,
              (self.recv_and_forward_loop a.input).events ++ pr.2 ++ tail.events,
              tail.finished⟩ : SupervisedOut))
          (supervisedGo seq pr.1 retry2.wait rest))
        ((self.recv_and_forward_loop a.input).actor.set_state
          (.Reconnecting retry2.count retry2.next_delay (some e))))
      (if a.uptime > 60 * 4 then retrier seq else retry) := by
  simp only [supervisedGo, h]

lemma applyCancel_no_uninit (self : ListenerActor)
    (inflight : Option (AttemptInput × Nat)) :
    ListenerEvent.ConnectionStateChanged .Unitialized ∉ (applyCancel self inflight).2 := by
  cases inflight with
  | none => simp [applyCancel]
  | some p =>
    obtain ⟨input, k⟩ := p
    cases input with
    | buildErr m => simp [applyCancel, ListenerActor.cancelledAttempt]
    | execErr m => simp [applyCancel, ListenerActor.cancelledAttempt]
    | httpErr c => simp [applyCancel, ListenerActor.cancelledAttempt]
    | okStream items =>
      simp only [applyCancel, ListenerActor.cancelledAttempt, ListenerActor.set_state,
        List.singleton_append, List.mem_cons]
      rintro (h | h)
      · exact ListenerEvent.noConfusion h fun hs => ConnectionState.noConfusion hs
      · exact streamLoop_no_csc _ _ _ h

lemma run_supervised_state (seq : Nat → Nat) (self : ListenerActor)
    (attempts : List AttemptRecord) :
    (self.run_supervised_loop seq attempts).actor.state
      = lastState self.state (self.run_supervised_loop seq attempts).events :=
  supervisedGo_state seq self (retrier seq) attempts

lemma run_supervised_no_uninit (seq : Nat → Nat) (self : ListenerActor)
    (attempts : List AttemptRecord) :
    ListenerEvent.ConnectionStateChanged .Unitialized
      ∉ (self.run_supervised_loop seq attempts).events :=
  supervisedGo_no_uninit seq self (retrier seq) attempts

lemma run_supervised_since_mono (seq : Nat → Nat) (self : ListenerActor)
    (attempts : List AttemptRecord) :
    self.config.since ≤ (self.run_supervised_loop seq attempts).actor.config.since :=
  supervisedGo_since_mono seq self (retrier seq) attempts

lemma handleItem_ok_iff (self : ListenerActor) (item : StreamItem) :
    (self.handleItem item).result = Except.ok () ↔ item.clean = true := by
  cases item with
  | ioErr m => simp [ListenerActor.handleItem, StreamItem.clean]
  | line l =>
    cases hm : l.minParse with
    | none => simp [ListenerActor.handleItem, StreamItem.clean, hm]
    | some t =>
      cases hf : l.fullParse with
      | none => simp [ListenerActor.handleItem, StreamItem.clean, hm, hf]
      | some ev =>
        cases ev <;> simp [ListenerActor.handleItem, StreamItem.clean, hm, hf]

lemma streamLoop_ok_iff (self : ListenerActor) (items : List StreamItem) :
    (self.streamLoop items).result = Except.ok ()
      ↔ items.all StreamItem.clean = true := by
  induction items generalizing self with
  | nil => simp [ListenerActor.streamLoop]
  | cons item rest ih =>
    simp only [ListenerActor.streamLoop]
    cases hr : (self.handleItem item).result with
    | error e =>
      have hc : ¬ item.clean = true := by
        intro hc
        have := (handleItem_ok_iff self item).mpr hc
        rw [hr] at this
        exact Except.noConfusion this
      simp [List.all_cons, hc]
    | ok u =>
      cases u
      have hc : item.clean = true := (handleItem_ok_iff self item).mp hr
      simp [List.all_cons, hc, ih]

lemma recv_ok_iff (self : ListenerActor) (input : AttemptInput) :
    (self.recv_and_forward_loop input).result = Except.ok ()
      ↔ input.cleanEnd = true := by
  cases input with
  | buildErr m => simp [ListenerActor.recv_and_forward_loop, AttemptInput.cleanEnd]
  | execErr m => simp [ListenerActor.recv_and_forward_loop, AttemptInput.cleanEnd]
  | httpErr c => simp [ListenerActor.recv_and_forward_loop, AttemptInput.cleanEnd]
  | okStream items =>
    simpa [ListenerActor.recv_and_forward_loop, ListenerActor.set_state,
      AttemptInput.cleanEnd] using streamLoop_ok_iff ⟨self.config, .Connected⟩ items

lemma handleItem_message_src (self : ListenerActor) (item : StreamItem)
    (m : ReceivedMessage)
    (h : ListenerEvent.Message m ∈ (self.handleItem item).events) :
    ∃ l, item = StreamItem.line l ∧ l.fullParse = some (ServerEvent.Message m) := by
  cases item with
  | ioErr s => simp [ListenerActor.handleItem] at h
  | line l =>
    refine ⟨l, rfl, ?_⟩
    cases hm : l.minParse with
    | none => simp [ListenerActor.handleItem, hm] at h
    | some t =>
      cases hf : l.fullParse with
      | none => simp [ListenerActor.handleItem, hm, hf] at h
      | some ev =>
        cases ev with
        | Message m2 =>
          simp [ListenerActor.handleItem, hm, hf] at h
          subst h
          rfl
        | Open id time exp topic => simp [ListenerActor.handleItem, hm, hf] at h
        | KeepAlive id time exp topic => simp [ListenerActor.handleItem, hm, hf] at h

lemma streamLoop_message_src (self : ListenerActor) (items : List StreamItem)
    (m : ReceivedMessage)
    (h : ListenerEvent.Message m ∈ (self.streamLoop items).events) :
    ∃ l, StreamItem.line l ∈ items ∧ l.fullParse = some (ServerEvent.Message m) := by
  induction items generalizing self with
  | nil => simp [ListenerActor.streamLoop] at h
  | cons item rest ih =>
    simp only [ListenerActor.streamLoop] at h
    cases hr : (self.handleItem item).result with
    | error e =>
      rw [hr] at h
      obtain ⟨l, hl, hf⟩ := handleItem_message_src self item m h
      exact ⟨l, by simp [hl], hf⟩
    | ok u =>
      rw [hr] at h
      simp only [List.mem_append] at h
      rcases h with h | h
      · obtain ⟨l, hl, hf⟩ := handleItem_message_src self item m h
        exact ⟨l, by simp [hl], hf⟩
      · obtain ⟨l, hl, hf⟩ := ih _ h
        exact ⟨l, List.mem_cons_of_mem _ hl, hf⟩

lemma run_loop_nil (seq : Nat → Nat) (self : ListenerActor) :
    self.run_loop seq [] = ⟨self, [], [], 0, false⟩ := rfl

lemma run_loop_superWins (seq : Nat → Nat) (self : ListenerActor)
    (attempts : List AttemptRecord) (rest : List RaceStep) :
    self.run_loop seq (RaceStep.superWins attempts :: rest) =
      ⟨(self.run_supervised_loop seq attempts).actor,
       (self.run_supervised_loop seq attempts).events, [], 0,
       (self.run_supervised_loop seq attempts).finished⟩ := rfl

lemma run_loop_cmd_finished (seq : Nat → Nat) (self : ListenerActor)
    (completed : List AttemptRecord) (inflight : Option (AttemptInput × Nat))
    (c : Option ListenerCommand) (rest : List RaceStep)
    (h : (self.run_supervised_loop seq completed).finished = true) :
    self.run_loop seq (RaceStep.cmdWins completed inflight c :: rest) =
      ⟨(self.run_supervised_loop seq completed).actor,
       (self.run_supervised_loop seq completed).events, [], 0, true⟩ := by
  simp [ListenerActor.run_loop, h]

lemma run_loop_restart (seq : Nat → Nat) (self : ListenerActor)
    (completed : List AttemptRecord) (inflight : Option (AttemptInput × Nat))
    (rest : List RaceStep)
    (h : (self.run_supervised_loop seq completed).finished = false) :
    self.run_loop seq (RaceStep.cmdWins completed inflight (some .Restart) :: rest) =
      { actor :=
          ((applyCancel (self.run_supervised_loop seq completed).actor inflight).1.run_loop
            seq rest).actor,
        events :=
          (self.run_supervised_loop seq completed).events ++
            (applyCancel (self.run_supervised_loop seq completed).actor inflight).2 ++
            ((applyCancel (self.run_supervised_loop seq completed).actor inflight).1.run_loop
              seq rest).events,
        replies :=
          ((applyCancel (self.run_supervised_loop seq completed).actor inflight).1.run_loop
            seq rest).replies,
        warns :=
          ((applyCancel (self.run_supervised_loop seq completed).actor inflight).1.run_loop
            seq rest).warns,
        ended :=
          ((applyCancel (self.run_supervised_loop seq completed).actor inflight).1.run_loop
            seq rest).ended } := by
  simp [ListenerActor.run_loop, h, RunOut.withEvents, List.append_assoc]

lemma run_loop_shutdown (seq : Nat → Nat) (self : ListenerActor)
    (completed : List AttemptRecord) (inflight : Option (AttemptInput × Nat))
    (rest : List RaceStep)
    (h : (self.run_supervised_loop seq completed).finished = false) :
    self.run_loop seq (RaceStep.cmdWins completed inflight (some .Shutdown) :: rest) =
      ⟨(applyCancel (self.run_supervised_loop seq completed).actor inflight).1,
       (self.run_supervised_loop seq completed).events ++
         (applyCancel (self.run_supervised_loop seq completed).actor inflight).2,
       [], 0, true⟩ := by
  simp [ListenerActor.run_loop, h]

lemma run_loop_chan_closed (seq : Nat → Nat) (self : ListenerActor)
    (completed : List AttemptRecord) (inflight : Option (AttemptInput × Nat))
    (rest : List RaceStep)
    (h : (self.run_supervised_loop seq completed).finished = false) :
    self.run_loop seq (RaceStep.cmdWins completed inflight none :: rest) =
      ⟨(applyCancel (self.run_supervised_loop seq completed).actor inflight).1,
       (self.run_supervised_loop seq completed).events ++
         (applyCancel (self.run_supervised_loop seq completed).actor inflight).2,
       [], 0, true⟩ := by
  simp [ListenerActor.run_loop, h]

lemma run_loop_getstate (seq : Nat → Nat) (self : ListenerActor)
    (completed : List AttemptRecord) (inflight : Option (AttemptInput × Nat))
    (b : Bool) (rest : List RaceStep)
    (h : (self.run_supervised_loop seq completed).finished = false) :
    self.run_loop seq
        (RaceStep.cmdWins completed inflight (some (.GetState b)) :: rest) =
      { actor :=
          ((applyCancel (self.run_supervised_loop seq completed).actor inflight).1.run_loop
            seq rest).actor,
        events :=
          (self.run_supervised_loop seq completed).events ++
            (applyCancel (self.run_supervised_loop seq completed).actor inflight).2 ++
            ((applyCancel (self.run_supervised_loop seq completed).actor inflight).1.run_loop
              seq rest).events,
        replies :=
          (if b then
            [(applyCancel (self.run_supervised_loop seq completed).actor inflight).1.state]
           else []) ++
            ((applyCancel (self.run_supervised_loop seq completed).actor inflight).1.run_loop
              seq rest).replies,
        warns :=
          (if b then 0 else 1) +
            ((applyCancel (self.run_supervised_loop seq completed).actor inflight).1.run_loop
              seq rest).warns,
        ended :=
          ((applyCancel (self.run_supervised_loop seq completed).actor inflight).1.run_loop
            seq rest).ended } := by
  simp [ListenerActor.run_loop, h]

lemma run_loop_state (seq : Nat → Nat) (self : ListenerActor) (script : List RaceStep) :
    (self.run_loop seq script).actor.state
      = lastState self.state (self.run_loop seq script).events := by
  induction script generalizing self with
  | nil => rfl
  | cons step rest ih =>
    cases step with
    | superWins attempts =>
      rw [run_loop_superWins]
      exact supervisedGo_state seq self (retrier seq) attempts
    | cmdWins completed inflight c =>
      cases hf : (self.run_supervised_loop seq completed).finished with
      | true =>
        rw [run_loop_cmd_finished seq self completed inflight c rest hf]
        exact supervisedGo_state seq self (retrier seq) completed
      | false =>
        cases c with
        | none =>
          rw [run_loop_chan_closed seq self completed inflight rest hf, lastState_append,
            ← run_supervised_state seq self completed]
          exact applyCancel_state _ _
        | some cmd =>
          cases cmd with
          | Restart =>
            rw [run_loop_restart seq self completed inflight rest hf, lastState_append,
              lastState_append, ← run_supervised_state seq self completed,
              ← applyCancel_state]
            exact ih _
          | Shutdown =>
            rw [run_loop_shutdown seq self completed inflight rest hf, lastState_append,
              ← run_supervised_state seq self completed]
            exact applyCancel_state _ _
          | GetState b =>
            rw [run_loop_getstate seq self completed inflight b rest hf, lastState_append,
              lastState_append, ← run_supervised_state seq self completed,
              ← applyCancel_state]
            exact ih _

lemma run_loop_no_uninit (seq : Nat → Nat) (self : ListenerActor)
    (script : List RaceStep) :
    ListenerEvent.ConnectionStateChanged .Unitialized
      ∉ (self.run_loop seq script).events := by
  induction script generalizing self with
  | nil => simp [run_loop_nil]
  | cons step rest ih =>
    cases step with
    | superWins attempts =>
      rw [run_loop_superWins]
      exact supervisedGo_no_uninit seq self (retrier seq) attempts
    | cmdWins completed inflight c =>
      cases hf : (self.run_supervised_loop seq completed).finished with
      | true =>
        rw [run_loop_cmd_finished seq self completed inflight c rest hf]
        exact supervisedGo_no_uninit seq self (retrier seq) completed
      | false =>
        have hsup := supervisedGo_no_uninit seq self (retrier seq) completed
        have hcan :=
          applyCancel_no_uninit (self.run_supervised_loop seq completed).actor inflight
        cases c with
        | none =>
          rw [run_loop_chan_closed seq self completed inflight rest hf]
          simp only [List.mem_append]
          rintro (h | h)
          · exact hsup h
          · exact hcan h
        | some cmd =>
          cases cmd with
          | Restart =>
            rw [run_loop_restart seq self completed inflight rest hf]
            simp only [List.mem_append]
            rintro ((h | h) | h)
            · exact hsup h
            · exact hcan h
            · exact ih _ h
          | Shutdown =>
            rw [run_loop_shutdown seq self completed inflight rest hf]
            simp only [List.mem_append]
            rintro (h | h)
            · exact hsup h
            · exact hcan h
          | GetState b =>
            rw [run_loop_getstate seq self completed inflight b rest hf]
            simp only [List.mem_append]
            rintro ((h | h) | h)
            · exact hsup h
            · exact hcan h
            · exact ih _ h

lemma run_loop_since_mono (seq : Nat → Nat) (self : ListenerActor)
    (script : List RaceStep) :
    self.config.since ≤ (self.run_loop seq script).actor.config.since := by
  induction script generalizing self with
  | nil => exact le_refl _
  | cons step rest ih =>
    cases step with
    | superWins attempts =>
      rw [run_loop_superWins]
      exact supervisedGo_since_mono seq self (retrier seq) attempts
    | cmdWins completed inflight c =>
      cases hf : (self.run_supervised_loop seq completed).finished with
      | true =>
        rw [run_loop_cmd_finished seq self completed inflight c rest hf]
        exact supervisedGo_since_mono seq self (retrier seq) completed
      | false =>
        have hbase :
            self.config.since ≤
              (applyCancel (self.run_supervised_loop seq completed).actor inflight).1.config.since :=
          le_trans (supervisedGo_since_mono seq self (retrier seq) completed)
            (applyCancel_since_mono _ _)
        cases c with
        | none =>
          rw [run_loop_chan_closed seq self completed inflight rest hf]
          exact hbase
        | some cmd =>
          cases cmd with
          | Restart =>
            rw [run_loop_restart seq self completed inflight rest hf]
            exact le_trans hbase (ih _)
          | Shutdown =>
            rw [run_loop_shutdown seq self completed inflight rest hf]
            exact hbase
          | GetState b =>
            rw [run_loop_getstate seq self completed inflight b rest hf]
            exact le_trans hbase (ih _)

/-! ## Claim theorems -/

/-- C3: in the 500-then-200-open scenario (mirroring the repository's own test
`test_listener_reconnects_on_http_status_500`), the consumer observes exactly
`ConnectionStateChanged(Reconnecting{..})` then
`ConnectionStateChanged(Connected)` and the actor ends. In particular no
`ConnectionStateChanged(Unitialized)` event is emitted: the actor stores
`Unitialized` at spawn but never publishes it, so the leading `Uninitialized`
element of the claimed three-event sequence (also asserted by the repository's
test) never reaches the consumer. -/
theorem C3_scenario_500_then_open :
    (ListenerActor.run_loop fixSeq testActor
        [RaceStep.superWins [failRec, okRec]]).events =
      [ListenerEvent.ConnectionStateChanged
        (.Reconnecting 0 1 (some (.HttpStatus 500))),
       ListenerEvent.ConnectionStateChanged .Connected] ∧
    (ListenerActor.run_loop fixSeq testActor
        [RaceStep.superWins [failRec, okRec]]).ended = true ∧
    ListenerEvent.ConnectionStateChanged .Unitialized ∉
      (ListenerActor.run_loop fixSeq testActor
        [RaceStep.superWins [failRec, okRec]]).events := by
  exact ⟨by decide, by decide, by decide⟩

/-- C4: processing a line whose minimal timestamp parse yields `t` sets the
cursor to `max(t, current)`; consequently the cursor is monotonically
non-decreasing across any sequence of processed lines, attempts and command
iterations, and a line whose timestamp is not above the cursor leaves the
cursor unchanged. -/
theorem C4_cursor_max_monotone (self : ListenerActor) (l : Line) (t : Nat)
    (h : l.minParse = some t) :
    ((self.handleItem (.line l)).actor.config.since
        = Nat.max t self.config.since) ∧
    (t ≤ self.config.since →
      (self.handleItem (.line l)).actor.config.since = self.config.since) ∧
    (∀ items, self.config.since ≤ (self.streamLoop items).actor.config.since) ∧
    (∀ seq script,
      self.config.since ≤ (self.run_loop seq script).actor.config.since) := by
  have hmax : (self.handleItem (.line l)).actor.config.since
      = Nat.max t self.config.since := by
    cases hf : l.fullParse with
    | none => simp [ListenerActor.handleItem, h, hf]
    | some ev => cases ev <;> simp [ListenerActor.handleItem, h, hf]
  refine ⟨hmax, ?_, streamLoop_since_mono self,
    fun seq script => run_loop_since_mono seq self script⟩
  intro hle
  rw [hmax]
  exact Nat.max_eq_right hle

/-- C4 witness: cursor 5 and an incoming timestamp 3 (not above the cursor)
leave the cursor at 5; timestampped lines never decrease it. -/
theorem C4_witness :
    Line.minParse ⟨"x", some 3, none⟩ = some 3 ∧
    (((initialActor "e" "t" 5).handleItem
        (.line ⟨"x", some 3, none⟩)).actor.config.since = Nat.max 3 5) ∧
    (3 ≤ 5 →
      ((initialActor "e" "t" 5).handleItem
        (.line ⟨"x", some 3, none⟩)).actor.config.since = 5) ∧
    (∀ items,
      5 ≤ ((initialActor "e" "t" 5).streamLoop items).actor.config.since) ∧
    (∀ seq script,
      5 ≤ ((initialActor "e" "t" 5).run_loop seq script).actor.config.since) :=
  ⟨rfl, C4_cursor_max_monotone (initialActor "e" "t" 5) ⟨"x", some 3, none⟩ 3 rfl⟩

/-- C5: a line on which even the minimal timestamp extraction fails ends the
attempt with the distinct `InvalidMinMessage` error and does not advance the
cursor; when minimal extraction succeeds the cursor is advanced before full
parsing, so a full-decode failure (`InvalidMessage`) still leaves the cursor
at `max(t, previous)`. -/
theorem C5_min_parse_ordering (self : ListenerActor) (l : Line) :
    (l.minParse = none →
      self.handleItem (.line l) =
        ⟨self, [], .error (.InvalidMinMessage l.raw)⟩) ∧
    (∀ t, l.minParse = some t → l.fullParse = none →
      self.handleItem (.line l) =
        ⟨{ self with
            config := { self.config with since := Nat.max t self.config.since } },
         [], .error (.InvalidMessage l.raw)⟩) := by
  constructor
  · intro hm
    simp [ListenerActor.handleItem, hm]
  · intro t hm hf
    simp [ListenerActor.handleItem, hm, hf]

/-- C5 witness: a min-unparseable line leaves the cursor at 5 and fails with
`InvalidMinMessage`; a min-parseable but full-unparseable line with timestamp
9 advances the cursor to `max 9 5` and fails with `InvalidMessage`. -/
theorem C5_witness :
    (initialActor "e" "t" 5).handleItem (.line ⟨"junk", none, none⟩) =
      ⟨initialActor "e" "t" 5, [], .error (.InvalidMinMessage "junk")⟩ ∧
    (initialActor "e" "t" 5).handleItem (.line ⟨"half", some 9, none⟩) =
      ⟨{ initialActor "e" "t" 5 with
          config := { (initialActor "e" "t" 5).config with
            since := Nat.max 9 (initialActor "e" "t" 5).config.since } },
       [], .error (.InvalidMessage "half")⟩ :=
  ⟨(C5_min_parse_ordering (initialActor "e" "t" 5) ⟨"junk", none, none⟩).1 rfl,
   (C5_min_parse_ordering (initialActor "e" "t" 5) ⟨"half", some 9, none⟩).2 9 rfl rfl⟩

/-- C6: a connection attempt returns success exactly when the line stream ran
to its end without error (remote closed cleanly); a successful attempt makes
the supervised loop break immediately — the remaining scripted attempts
produce no further attempts or events — and when the supervised branch
finishes, the actor body ends with no outbound events beyond those of the
supervised loop. -/
theorem C6_clean_end_terminal :
    (∀ (self : ListenerActor) (input : AttemptInput),
      (self.recv_and_forward_loop input).result = Except.ok () ↔
        input.cleanEnd = true) ∧
    (∀ (seq : Nat → Nat) (self : ListenerActor) (retry : WaitExponentialRandom)
        (a : AttemptRecord) (rest : List AttemptRecord),
      AttemptInput.cleanEnd a.input = true →
        supervisedGo seq self retry (a :: rest) =
          ⟨(self.recv_and_forward_loop a.input).actor, retry,
           (self.recv_and_forward_loop a.input).events, true⟩) ∧
    (∀ (seq : Nat → Nat) (self : ListenerActor) (attempts : List AttemptRecord)
        (rest : List RaceStep),
      (self.run_supervised_loop seq attempts).finished = true →
        (self.run_loop seq (RaceStep.superWins attempts :: rest)).ended = true ∧
        (self.run_loop seq (RaceStep.superWins attempts :: rest)).events =
          (self.run_supervised_loop seq attempts).events) := by
  refine ⟨recv_ok_iff, ?_, ?_⟩
  · intro seq self retry a rest hclean
    exact supervisedGo_cons_ok seq self retry a rest
      ((recv_ok_iff self a.input).mpr hclean)
  · intro seq self attempts rest hfin
    rw [run_loop_superWins]
    exact ⟨hfin, rfl⟩

/-- C6 witness: one attempt that streams a single valid `message` line and
then sees the remote close cleanly is a success; with further scripted
attempts behind it, the supervised loop still breaks right there and the
actor body ends. -/
theorem C6_witness :
    ((testActor.recv_and_forward_loop (.okStream [.line msgLine])).result
        = Except.ok () ↔
      AttemptInput.cleanEnd (.okStream [.line msgLine]) = true) ∧
    supervisedGo fixSeq testActor (retrier fixSeq)
        (⟨.okStream [.line msgLine], 0⟩ :: [failRec]) =
      ⟨(testActor.recv_and_forward_loop
          (AttemptRecord.input ⟨.okStream [.line msgLine], 0⟩)).actor,
       retrier fixSeq,
       (testActor.recv_and_forward_loop
          (AttemptRecord.input ⟨.okStream [.line msgLine], 0⟩)).events, true⟩ ∧
    (testActor.run_loop fixSeq
        [RaceStep.superWins [⟨.okStream [.line msgLine], 0⟩]]).ended = true :=
  ⟨C6_clean_end_terminal.1 testActor (.okStream [.line msgLine]),
   C6_clean_end_terminal.2.1 fixSeq testActor (retrier fixSeq)
     ⟨.okStream [.line msgLine], 0⟩ [failRec] (by decide),
   (C6_clean_end_terminal.2.2 fixSeq testActor
     [⟨.okStream [.line msgLine], 0⟩] [] (by decide)).1⟩

/-- C7: when an attempt fails with error `e`, the backoff generator is
replaced by a fresh one exactly when the attempt's uptime exceeded
60 × 4 seconds (a fresh generator has attempt count 0 and first delay
`seq 0`); the published `Reconnecting` state carries the resulting
generator's current attempt count, its upcoming delay and the causing error;
and the loop retries with that generator advanced by `wait()`, which per the
spec-modelled backoff contract sleeps exactly `next_delay()` before the next
attempt. -/
theorem C7_reconnect_policy (seq : Nat → Nat) (self : ListenerActor)
    (retry : WaitExponentialRandom) (a : AttemptRecord)
    (rest : List AttemptRecord) (e : NtfyError)
    (h : (self.recv_and_forward_loop a.input).result = Except.error e) :
    ((supervisedGo seq self retry (a :: rest)).events =
      (self.recv_and_forward_loop a.input).events ++
      ListenerEvent.ConnectionStateChanged
        (.Reconnecting (if a.uptime > 60 * 4 then retrier seq else retry).count
          (if a.uptime > 60 * 4 then retrier seq else retry).next_delay
          (some e)) ::
      (supervisedGo seq
        ((self.recv_and_forward_loop a.input).actor.set_state
          (.Reconnecting (if a.uptime > 60 * 4 then retrier seq else retry).count
            (if a.uptime > 60 * 4 then retrier seq else retry).next_delay
            (some e))).1
        (if a.uptime > 60 * 4 then retrier seq else retry).wait rest).events) ∧
    (a.uptime > 60 * 4 →
      (if a.uptime > 60 * 4 then retrier seq else retry) = retrier seq ∧
      (retrier seq).count = 0 ∧ (retrier seq).next_delay = seq 0) ∧
    (¬ a.uptime > 60 * 4 →
      (if a.uptime > 60 * 4 then retrier seq else retry) = retry) ∧
    (∀ r : WaitExponentialRandom,
      r.wait = { r with count := r.count + 1 } ∧ r.next_delay = r.seq r.count) := by
  refine ⟨?_, fun hu => ⟨if_pos hu, rfl, rfl⟩, fun hu => if_neg hu,
    fun r => ⟨rfl, rfl⟩⟩
  rw [supervisedGo_cons_err seq self retry a rest e h]
  simp [ListenerActor.set_state]

/-- C7 witness: a failed attempt with uptime 300 s (> 4 min) on a generator
already at attempt count 1 publishes `Reconnecting` built from the freshly
reset generator. -/
theorem C7_witness :
    ((supervisedGo fixSeq testActor (retrier fixSeq).wait [failLong]).events =
      (testActor.recv_and_forward_loop (AttemptRecord.input failLong)).events ++
      ListenerEvent.ConnectionStateChanged
        (.Reconnecting
          (if AttemptRecord.uptime failLong > 60 * 4 then retrier fixSeq
            else (retrier fixSeq).wait).count
          (if AttemptRecord.uptime failLong > 60 * 4 then retrier fixSeq
            else (retrier fixSeq).wait).next_delay
          (some (.HttpStatus 500))) ::
      (supervisedGo fixSeq
        ((testActor.recv_and_forward_loop
            (AttemptRecord.input failLong)).actor.set_state
          (.Reconnecting
            (if AttemptRecord.uptime failLong > 60 * 4 then retrier fixSeq
              else (retrier fixSeq).wait).count
            (if AttemptRecord.uptime failLong > 60 * 4 then retrier fixSeq
              else (retrier fixSeq).wait).next_delay
            (some (.HttpStatus 500)))).1
        (if AttemptRecord.uptime failLong > 60 * 4 then retrier fixSeq
          else (retrier fixSeq).wait).wait []).events) ∧
    (AttemptRecord.uptime failLong > 60 * 4 →
      (if AttemptRecord.uptime failLong > 60 * 4 then retrier fixSeq
        else (retrier fixSeq).wait) = retrier fixSeq ∧
      (retrier fixSeq).count = 0 ∧ (retrier fixSeq).next_delay = fixSeq 0) ∧
    (¬ AttemptRecord.uptime failLong > 60 * 4 →
      (if AttemptRecord.uptime failLong > 60 * 4 then retrier fixSeq
        else (retrier fixSeq).wait) = (retrier fixSeq).wait) ∧
    (∀ r : WaitExponentialRandom,
      r.wait = { r with count := r.count + 1 } ∧ r.next_delay = r.seq r.count) :=
  C7_reconnect_policy fixSeq testActor (retrier fixSeq).wait failLong []
    (.HttpStatus 500) rfl

/-- C8: a fully parsed `Message` event is forwarded to the outbound channel
exactly once; `Open` and `KeepAlive` events are never forwarded; every
`Message` outbound event of the stream loop originates from a streamed line
fully parsed as that `message`; and the stream loop emits no
connection-state changes of its own. -/
theorem C8_dispatch_forwarding (self : ListenerActor) (l : Line) (t : Nat)
    (h : l.minParse = some t) :
    (∀ m, l.fullParse = some (ServerEvent.Message m) →
      (self.handleItem (.line l)).events = [ListenerEvent.Message m]) ∧
    (∀ id time expires topic,
      l.fullParse = some (ServerEvent.Open id time expires topic) →
      (self.handleItem (.line l)).events = []) ∧
    (∀ id time expires topic,
      l.fullParse = some (ServerEvent.KeepAlive id time expires topic) →
      (self.handleItem (.line l)).events = []) ∧
    (∀ items m, ListenerEvent.Message m ∈ (self.streamLoop items).events →
      ∃ l2, StreamItem.line l2 ∈ items ∧
        l2.fullParse = some (ServerEvent.Message m)) ∧
    (∀ items s,
      ListenerEvent.ConnectionStateChanged s ∉ (self.streamLoop items).events) := by
  refine ⟨?_, ?_, ?_, fun items m => streamLoop_message_src self items m,
    fun items s => streamLoop_no_csc self items s⟩
  · intro m hf
    simp [ListenerActor.handleItem, h, hf]
  · intro id time expires topic hf
    simp [ListenerActor.handleItem, h, hf]
  · intro id time expires topic hf
    simp [ListenerActor.handleItem, h, hf]

/-- C8 witness: a parsed `message` line is forwarded exactly once; the
`open` line of the test fixture is not forwarded. -/
theorem C8_witness :
    (testActor.handleItem (.line msgLine)).events =
      [ListenerEvent.Message ⟨"m1", 1635528757⟩] ∧
    (testActor.handleItem (.line openLine)).events = [] :=
  ⟨(C8_dispatch_forwarding testActor msgLine 1635528757 rfl).1
      ⟨"m1", 1635528757⟩ rfl,
   (C8_dispatch_forwarding testActor openLine 1635528757 rfl).2.1
      "SLiKI64DOt" 1635528757 none "mytopic" rfl⟩

/-- C1 counterexample: one failed attempt advances the backoff generator to
attempt count 1 with upcoming delay `fixSeq 1 = 2`; after a `Restart`, the
next failure publishes `Reconnecting` with retry count 0 and delay
`fixSeq 0 = 1` — the fresh generator of the re-invoked supervised loop — not
the pre-Restart continuation values 1 and 2 the claim requires. -/
theorem C1_counterexample :
    (ListenerActor.run_supervised_loop fixSeq testActor [failRec]).retry.count
        = 1 ∧
    (ListenerActor.run_supervised_loop fixSeq testActor
        [failRec]).retry.next_delay = 2 ∧
    (ListenerActor.run_loop fixSeq testActor
        [RaceStep.cmdWins [failRec] none (some .Restart),
         RaceStep.superWins [failRec, okRec]]).events =
      [ListenerEvent.ConnectionStateChanged
        (.Reconnecting 0 1 (some (.HttpStatus 500))),
       ListenerEvent.ConnectionStateChanged
        (.Reconnecting 0 1 (some (.HttpStatus 500))),
       ListenerEvent.ConnectionStateChanged .Connected] ∧
    ¬ (ListenerActor.run_loop fixSeq testActor
        [RaceStep.cmdWins [failRec] none (some .Restart),
         RaceStep.superWins [failRec, okRec]]).events.get? 1 =
      some (ListenerEvent.ConnectionStateChanged
        (.Reconnecting 1 2 (some (.HttpStatus 500)))) := by
  exact ⟨by decide, by decide, by decide, by decide⟩

/-- C1 amended: receiving `Restart` drops the in-flight supervised loop
(already-performed effects of the cancelled attempt persist) and continues
the command loop with a new iteration; but each supervised-loop invocation
initializes a fresh backoff generator, so the Restart DOES reset the
backoff: the next iteration's generator starts at attempt count 0 with first
delay `seq 0`. -/
theorem C1_restart_fresh_backoff (seq : Nat → Nat) (self : ListenerActor)
    (completed : List AttemptRecord) (inflight : Option (AttemptInput × Nat))
    (rest : List RaceStep)
    (h : (self.run_supervised_loop seq completed).finished = false) :
    self.run_loop seq
        (RaceStep.cmdWins completed inflight (some .Restart) :: rest) =
      { actor :=
          ((applyCancel (self.run_supervised_loop seq completed).actor
              inflight).1.run_loop seq rest).actor,
        events :=
          (self.run_supervised_loop seq completed).events ++
            (applyCancel (self.run_supervised_loop seq completed).actor
              inflight).2 ++
            ((applyCancel (self.run_supervised_loop seq completed).actor
                inflight).1.run_loop seq rest).events,
        replies :=
          ((applyCancel (self.run_supervised_loop seq completed).actor
              inflight).1.run_loop seq rest).replies,
        warns :=
          ((applyCancel (self.run_supervised_loop seq completed).actor
              inflight).1.run_loop seq rest).warns,
        ended :=
          ((applyCancel (self.run_supervised_loop seq completed).actor
              inflight).1.run_loop seq rest).ended } ∧
    (∀ (a : ListenerActor) (atts : List AttemptRecord),
      a.run_supervised_loop seq atts = supervisedGo seq a (retrier seq) atts) ∧
    (retrier seq).count = 0 ∧ (retrier seq).next_delay = seq 0 :=
  ⟨run_loop_restart seq self completed inflight rest h,
   fun _ _ => rfl, rfl, rfl⟩

/-- C1 witness: the amended Restart behaviour at the concrete fixture run
(one failed attempt, then Restart, then nothing scripted). -/
theorem C1_witness :
    testActor.run_loop fixSeq
        [RaceStep.cmdWins [failRec] none (some .Restart)] =
      { actor :=
          ((applyCancel
              (testActor.run_supervised_loop fixSeq [failRec]).actor
              none).1.run_loop fixSeq []).actor,
        events :=
          (testActor.run_supervised_loop fixSeq [failRec]).events ++
            (applyCancel (testActor.run_supervised_loop fixSeq [failRec]).actor
              none).2 ++
            ((applyCancel (testActor.run_supervised_loop fixSeq [failRec]).actor
                none).1.run_loop fixSeq []).events,
        replies :=
          ((applyCancel (testActor.run_supervised_loop fixSeq [failRec]).actor
              none).1.run_loop fixSeq []).replies,
        warns :=
          ((applyCancel (testActor.run_supervised_loop fixSeq [failRec]).actor
              none).1.run_loop fixSeq []).warns,
        ended :=
          ((applyCancel (testActor.run_supervised_loop fixSeq [failRec]).actor
              none).1.run_loop fixSeq []).ended } ∧
    (∀ (a : ListenerActor) (atts : List AttemptRecord),
      a.run_supervised_loop fixSeq atts =
        supervisedGo fixSeq a (retrier fixSeq) atts) ∧
    (retrier fixSeq).count = 0 ∧ (retrier fixSeq).next_delay = fixSeq 0 :=
  C1_restart_fresh_backoff fixSeq testActor [failRec] none [] (by decide)

/-- C2 counterexample: handling `GetState` does reply with the current state
(first conjunct), but it does not leave the in-flight supervised-loop
iteration running: after the reply, the next failure publishes `Reconnecting`
with the fresh-generator values (count 0, delay 1) instead of the
continuation values (count 1, delay 2) that the uninterrupted iteration
would have produced. -/
theorem C2_counterexample :
    (ListenerActor.run_loop fixSeq testActor
        [RaceStep.cmdWins [failRec] none (some (.GetState true)),
         RaceStep.superWins [failRec, okRec]]).replies =
      [ConnectionState.Reconnecting 0 1 (some (.HttpStatus 500))] ∧
    (ListenerActor.run_loop fixSeq testActor
        [RaceStep.cmdWins [failRec] none (some (.GetState true)),
         RaceStep.superWins [failRec, okRec]]).events =
      [ListenerEvent.ConnectionStateChanged
        (.Reconnecting 0 1 (some (.HttpStatus 500))),
       ListenerEvent.ConnectionStateChanged
        (.Reconnecting 0 1 (some (.HttpStatus 500))),
       ListenerEvent.ConnectionStateChanged .Connected] ∧
    ¬ (ListenerActor.run_loop fixSeq testActor
        [RaceStep.cmdWins [failRec] none (some (.GetState true)),
         RaceStep.superWins [failRec, okRec]]).events.get? 1 =
      some (ListenerEvent.ConnectionStateChanged
        (.Reconnecting 1 2 (some (.HttpStatus 500)))) := by
  exact ⟨by decide, by decide, by decide⟩

/-- C2 amended: handling `GetState` replies with a copy of the currently
stored connection state (which equals the most recently published state) and
adds no events of its own; but because the `select!` race recreates the
supervised-loop future on every command-loop iteration, the in-flight
supervised loop is dropped and the loop continues with a fresh iteration
whose backoff generator starts at attempt count 0. -/
theorem C2_getstate_replies_and_restarts (seq : Nat → Nat)
    (self : ListenerActor) (completed : List AttemptRecord)
    (inflight : Option (AttemptInput × Nat)) (rest : List RaceStep)
    (h : (self.run_supervised_loop seq completed).finished = false) :
    self.run_loop seq
        (RaceStep.cmdWins completed inflight (some (.GetState true)) :: rest) =
      { actor :=
          ((applyCancel (self.run_supervised_loop seq completed).actor
              inflight).1.run_loop seq rest).actor,
        events :=
          (self.run_supervised_loop seq completed).events ++
            (applyCancel (self.run_supervised_loop seq completed).actor
              inflight).2 ++
            ((applyCancel (self.run_supervised_loop seq completed).actor
                inflight).1.run_loop seq rest).events,
        replies :=
          (applyCancel (self.run_supervised_loop seq completed).actor
              inflight).1.state ::
            ((applyCancel (self.run_supervised_loop seq completed).actor
                inflight).1.run_loop seq rest).replies,
        warns :=
          ((applyCancel (self.run_supervised_loop seq completed).actor
              inflight).1.run_loop seq rest).warns,
        ended :=
          ((applyCancel (self.run_supervised_loop seq completed).actor
              inflight).1.run_loop seq rest).ended } ∧
    (applyCancel (self.run_supervised_loop seq completed).actor inflight).1.state
      = lastState self.state
          ((self.run_supervised_loop seq completed).events ++
            (applyCancel (self.run_supervised_loop seq completed).actor
              inflight).2) ∧
    (∀ (a : ListenerActor) (atts : List AttemptRecord),
      a.run_supervised_loop seq atts = supervisedGo seq a (retrier seq) atts) ∧
    (retrier seq).count = 0 := by
  refine ⟨?_, ?_, fun _ _ => rfl, rfl⟩
  · rw [run_loop_getstate seq self completed inflight true rest h]
    simp
  · rw [lastState_append, ← run_supervised_state seq self completed]
    exact applyCancel_state _ _

/-- C2 witness: the amended GetState behaviour at the concrete fixture run
(one failed attempt, then GetState with a live reply channel, nothing
further scripted). -/
theorem C2_witness :
    testActor.run_loop fixSeq
        [RaceStep.cmdWins [failRec] none (some (.GetState true))] =
      { actor :=
          ((applyCancel (testActor.run_supervised_loop fixSeq [failRec]).actor
              none).1.run_loop fixSeq []).actor,
        events :=
          (testActor.run_supervised_loop fixSeq [failRec]).events ++
            (applyCancel (testActor.run_supervised_loop fixSeq [failRec]).actor
              none).2 ++
            ((applyCancel (testActor.run_supervised_loop fixSeq [failRec]).actor
                none).1.run_loop fixSeq []).events,
        replies :=
          (applyCancel (testActor.run_supervised_loop fixSeq [failRec]).actor
              none).1.state ::
            ((applyCancel (testActor.run_supervised_loop fixSeq [failRec]).actor
                none).1.run_loop fixSeq []).replies,
        warns :=
          ((applyCancel (testActor.run_supervised_loop fixSeq [failRec]).actor
              none).1.run_loop fixSeq []).warns,
        ended :=
          ((applyCancel (testActor.run_supervised_loop fixSeq [failRec]).actor
              none).1.run_loop fixSeq []).ended } ∧
    (applyCancel (testActor.run_supervised_loop fixSeq [failRec]).actor
        none).1.state
      = lastState testActor.state
          ((testActor.run_supervised_loop fixSeq [failRec]).events ++
            (applyCancel (testActor.run_supervised_loop fixSeq [failRec]).actor
              none).2) ∧
    (∀ (a : ListenerActor) (atts : List AttemptRecord),
      a.run_supervised_loop fixSeq atts =
        supervisedGo fixSeq a (retrier fixSeq) atts) ∧
    (retrier fixSeq).count = 0 :=
  C2_getstate_replies_and_restarts fixSeq testActor [failRec] none []
    (by decide)

/-- C9: `set_state` stores exactly the state it publishes; after any run of
the command loop the stored state equals the state of the most recently
emitted `ConnectionStateChanged` event (or the state the run started from,
if none was emitted — for a freshly spawned actor, `Unitialized`, which is
never published); and a delivered `GetState` reply equals the most recently
published state at the moment the command was handled. -/
theorem C9_state_matches_last_published :
    (∀ (self : ListenerActor) (s : ConnectionState),
      (self.set_state s).1.state = s ∧
      (self.set_state s).2 = [ListenerEvent.ConnectionStateChanged s]) ∧
    (∀ (seq : Nat → Nat) (self : ListenerActor) (script : List RaceStep),
      (self.run_loop seq script).actor.state =
        lastState self.state (self.run_loop seq script).events) ∧
    (∀ (seq : Nat → Nat) (e t : String) (n : Nat) (script : List RaceStep),
      ListenerEvent.ConnectionStateChanged .Unitialized ∉
        ((initialActor e t n).run_loop seq script).events) ∧
    (∀ (seq : Nat → Nat) (self : ListenerActor)
        (completed : List AttemptRecord)
        (inflight : Option (AttemptInput × Nat)) (rest : List RaceStep),
      (self.run_supervised_loop seq completed).finished = false →
      (self.run_loop seq
          (RaceStep.cmdWins completed inflight
            (some (.GetState true)) :: rest)).replies.head? =
        some (lastState self.state
          ((self.run_supervised_loop seq completed).events ++
            (applyCancel (self.run_supervised_loop seq completed).actor
              inflight).2))) := by
  refine ⟨fun self s => ⟨rfl, rfl⟩, run_loop_state,
    fun seq e t n script => run_loop_no_uninit seq _ script, ?_⟩
  intro seq self completed inflight rest h
  rw [run_loop_getstate seq self completed inflight true rest h]
  simp only [if_true, List.singleton_append, List.head?_cons]
  rw [lastState_append, ← run_supervised_state seq self completed]
  exact congrArg some (applyCancel_state _ _)

/-- C9 witness: after one failed attempt, the delivered GetState reply equals
the most recently published state. -/
theorem C9_witness :
    (testActor.run_loop fixSeq
        [RaceStep.cmdWins [failRec] none
          (some (.GetState true))]).replies.head? =
      some (lastState testActor.state
        ((testActor.run_supervised_loop fixSeq [failRec]).events ++
          (applyCancel (testActor.run_supervised_loop fixSeq [failRec]).actor
            none).2)) :=
  C9_state_matches_last_published.2.2.2 fixSeq testActor [failRec] none []
    (by decide)

/-- C10: when a `GetState` reply channel has been dropped by the requester,
the actor sends no reply, logs one warning, and continues the command loop:
the rest of the run is exactly the run it would have performed anyway, and
the actor does not terminate on account of the dropped channel. -/
theorem C10_dropped_reply_continue (seq : Nat → Nat) (self : ListenerActor)
    (completed : List AttemptRecord) (inflight : Option (AttemptInput × Nat))
    (rest : List RaceStep)
    (h : (self.run_supervised_loop seq completed).finished = false) :
    self.run_loop seq
        (RaceStep.cmdWins completed inflight (some (.GetState false)) :: rest) =
      { actor :=
          ((applyCancel (self.run_supervised_loop seq completed).actor
              inflight).1.run_loop seq rest).actor,
        events :=
          (self.run_supervised_loop seq completed).events ++
            (applyCancel (self.run_supervised_loop seq completed).actor
              inflight).2 ++
            ((applyCancel (self.run_supervised_loop seq completed).actor
                inflight).1.run_loop seq rest).events,
        replies :=
          ((applyCancel (self.run_supervised_loop seq completed).actor
              inflight).1.run_loop seq rest).replies,
        warns :=
          1 + ((applyCancel (self.run_supervised_loop seq completed).actor
              inflight).1.run_loop seq rest).warns,
        ended :=
          ((applyCancel (self.run_supervised_loop seq completed).actor
              inflight).1.run_loop seq rest).ended } := by
  rw [run_loop_getstate seq self completed inflight false rest h]
  simp

/-- C10 witness: the dropped-reply behaviour at the concrete fixture run
(one failed attempt, then GetState whose requester is gone). -/
theorem C10_witness :
    testActor.run_loop fixSeq
        [RaceStep.cmdWins [failRec] none (some (.GetState false))] =
      { actor :=
          ((applyCancel (testActor.run_supervised_loop fixSeq [failRec]).actor
              none).1.run_loop fixSeq []).actor,
        events :=
          (testActor.run_supervised_loop fixSeq [failRec]).events ++
            (applyCancel (testActor.run_supervised_loop fixSeq [failRec]).actor
              none).2 ++
            ((applyCancel (testActor.run_supervised_loop fixSeq [failRec]).actor
                none).1.run_loop fixSeq []).events,
        replies :=
          ((applyCancel (testActor.run_supervised_loop fixSeq [failRec]).actor
              none).1.run_loop fixSeq []).replies,
        warns :=
          1 + ((applyCancel (testActor.run_supervised_loop fixSeq [failRec]).actor
              none).1.run_loop fixSeq []).warns,
        ended :=
          ((applyCancel (testActor.run_supervised_loop fixSeq [failRec]).actor
              none).1.run_loop fixSeq []).ended } :=
  C10_dropped_reply_continue fixSeq testActor [failRec] none [] (by decide)

end Notify
